import Mathlib

/-!
Shallow embedding of the UFO agent-state machine and step-processing
pipeline, translated from:
  src/ufo/agents/states/app_agent_state.py
  src/ufo/module/processors/basic.py
Each definition mirrors the corresponding Python class or method; theorems
below settle the frozen claims about them.
-/

namespace UFO

/-- The host-agent states imported by app_agent_state.py
(ContinueHostAgentState, FinishHostAgentState, NoneHostAgentState). Their
bodies live in host_agent_state.py, which is outside the given sources; here
they are only the targets of the fixed cross-role transitions, so an
enumeration of the three imported classes suffices. -/
inductive HostAgentState
  | ContinueHostAgentState
  | FinishHostAgentState
  | NoneHostAgentState
  deriving DecidableEq, Repr

/-- Enum AppAgentStatus from app_agent_state.py. -/
inductive AppAgentStatus
  | ERROR
  | FINISH
  | SWITCH
  | CONTINUE
  | FAIL
  | PENDING
  | CONFIRM
  | SCREENSHOT
  deriving DecidableEq, Repr

/-- The .value of each AppAgentStatus member. -/
def AppAgentStatus.value : AppAgentStatus → String
  | .ERROR => "ERROR"
  | .FINISH => "FINISH"
  | .SWITCH => "SWITCH"
  | .CONTINUE => "CONTINUE"
  | .FAIL => "FAIL"
  | .PENDING => "PENDING"
  | .CONFIRM => "CONFIRM"
  | .SCREENSHOT => "SCREENSHOT"

/-- One constructor per concrete AppAgentState subclass registered in
app_agent_state.py, in source order. -/
inductive AppAgentStateKind
  | FinishAppAgentState
  | ContinueAppAgentState
  | ScreenshotAppAgentState
  | SwitchAppAgentState
  | PendingAppAgentState
  | ConfirmAppAgentState
  | ErrorAppAgentState
  | FailAppAgentState
  | NoneAppAgentState
  deriving DecidableEq, Repr

/-- The classmethod name() of each state class. ScreenshotAppAgentState
overrides only name(); NoneAppAgentState returns the empty string. -/
def AppAgentStateKind.name : AppAgentStateKind → String
  | .FinishAppAgentState => AppAgentStatus.FINISH.value
  | .ContinueAppAgentState => AppAgentStatus.CONTINUE.value
  | .ScreenshotAppAgentState => AppAgentStatus.SCREENSHOT.value
  | .SwitchAppAgentState => AppAgentStatus.SWITCH.value
  | .PendingAppAgentState => AppAgentStatus.PENDING.value
  | .ConfirmAppAgentState => AppAgentStatus.CONFIRM.value
  | .ErrorAppAgentState => AppAgentStatus.ERROR.value
  | .FailAppAgentState => AppAgentStatus.FAIL.value
  | .NoneAppAgentState => ""

/-- A host agent, seen from this module only as the hand-off target. -/
structure HostAgent where
  id : Nat
  deriving DecidableEq, Repr

/-- An app agent: a status string and a back-reference to its host.
Only the fields the state machine reads are modelled. -/
structure AppAgent where
  id : Nat
  status : String
  host : HostAgent
  deriving DecidableEq, Repr

/-- Result type of next_agent: BasicAgent is either the app agent itself
or a host agent. -/
inductive BasicAgent
  | app (a : AppAgent)
  | host (h : HostAgent)
  deriving DecidableEq, Repr

/-- Result type of next_state: either an app-side state (instantiated via
the state manager) or a host-side state class (the fixed cross-role
wiring). -/
inductive NextState
  | appState (s : AppAgentStateKind)
  | hostState (s : HostAgentState)
  deriving DecidableEq, Repr

/-- The registration order of the @AppAgentStateManager.register decorators
in app_agent_state.py. -/
def registeredAppStates : List AppAgentStateKind :=
  [ .FinishAppAgentState, .ContinueAppAgentState, .ScreenshotAppAgentState,
    .SwitchAppAgentState, .PendingAppAgentState, .ConfirmAppAgentState,
    .ErrorAppAgentState, .FailAppAgentState, .NoneAppAgentState ]

/-- Modelled from the spec: AgentStateManager.get_state lives in
ufo/agents/states/basic.py, which is outside the given sources. Per the
spec, lookup returns the registered type for the exact status string and
falls back to the none_state (NoneAppAgentState, per
AppAgentStateManager.none_state in the source) when no name matches. -/
def AppAgentStateManager.get_state (status : String) : AppAgentStateKind :=
  match registeredAppStates.find? (fun k => k.name == status) with
  | some k => k
  | none => AppAgentStateKind.NoneAppAgentState

/-- The calls a state handler makes on its agent. -/
inductive AgentCall
  | process
  | process_resume
  deriving DecidableEq, Repr

/-- The handle method of each state, recorded as the list of calls made on
the agent. Default (AppAgentState.handle) is pass; ContinueAppAgentState
overrides it to agent.process(context); ScreenshotAppAgentState inherits
that override; ConfirmAppAgentState calls agent.process_resume() exactly
when the user confirmation is truthy; PendingAppAgentState overrides with
pass. The user confirmation answer is passed in as an oracle. -/
def AppAgentState.handle (k : AppAgentStateKind) (user_confirm : Bool) :
    List AgentCall :=
  match k with
  | .ContinueAppAgentState => [AgentCall.process]
  | .ScreenshotAppAgentState => [AgentCall.process]
  | .ConfirmAppAgentState =>
      if user_confirm then [AgentCall.process_resume] else []
  | _ => []

/-- The next_agent method: default (AppAgentState.next_agent) returns the
agent itself; the Finish, Switch, Error, Fail and None subclasses override
it to return agent.host. -/
def AppAgentState.next_agent (k : AppAgentStateKind) (agent : AppAgent) :
    BasicAgent :=
  match k with
  | .FinishAppAgentState => BasicAgent.host agent.host
  | .SwitchAppAgentState => BasicAgent.host agent.host
  | .ErrorAppAgentState => BasicAgent.host agent.host
  | .FailAppAgentState => BasicAgent.host agent.host
  | .NoneAppAgentState => BasicAgent.host agent.host
  | _ => BasicAgent.app agent

/-- The next_state method: default (AppAgentState.next_state) resolves the
state from agent.status via AppAgentStateManager.get_state; the Finish,
Switch, Error, Fail and None subclasses return a fixed host-side state
class. -/
def AppAgentState.next_state (k : AppAgentStateKind) (agent : AppAgent) :
    NextState :=
  match k with
  | .FinishAppAgentState => NextState.hostState .FinishHostAgentState
  | .SwitchAppAgentState => NextState.hostState .ContinueHostAgentState
  | .ErrorAppAgentState => NextState.hostState .FinishHostAgentState
  | .FailAppAgentState => NextState.hostState .FinishHostAgentState
  | .NoneAppAgentState => NextState.hostState .NoneHostAgentState
  | _ => NextState.appState (AppAgentStateManager.get_state agent.status)

/-- The is_round_end method of each concrete state class. -/
def AppAgentState.is_round_end (k : AppAgentStateKind) : Bool :=
  match k with
  | .ErrorAppAgentState => true
  | .NoneAppAgentState => true
  | _ => false

/-- The transient instance field of ConfirmAppAgentState. -/
structure ConfirmAppAgentStateData where
  _confirm : Option Bool
  deriving DecidableEq, Repr

/-- ConfirmAppAgentState.handle, with its instance field threaded through:
stores the user confirmation in the _confirm field, then calls
agent.process_resume() if it is truthy, else does nothing. Returns the
updated instance, the agent as handle itself left it, and the calls made on
the agent. -/
def ConfirmAppAgentState.handle (self : ConfirmAppAgentStateData)
    (agent : AppAgent) (user_confirm : Bool) :
    ConfirmAppAgentStateData × AppAgent × List AgentCall :=
  let self' : ConfirmAppAgentStateData := { self with _confirm := some user_confirm }
  if user_confirm then (self', agent, [AgentCall.process_resume])
  else (self', agent, [])

/-! ## BaseProcessor (src/ufo/module/processors/basic.py) -/

/-- A JSON-able value appearing in a log record. -/
inductive JsonVal
  | num (n : Nat)
  | str (s : String)
  deriving DecidableEq, Repr

/-- One structured log record: the key/value pairs handed to json.dumps,
in insertion order. -/
def LogRecord := List (String × JsonVal)

/-- The mutable fields of a BaseProcessor. Collaborator handles that no
claim observes (photographer, request_logger, _app_window) are omitted;
the logger collaborator is modelled by the list of records written to it.
Fields holding not-yet-typed scratch data are Option String. -/
structure ProcessorState where
  log_path : String
  request : String
  global_step : Nat
  round_step : Nat
  prev_status : String
  index : Nat
  _step : Nat
  _status : String
  _prompt_message : Option String
  _response : Option String
  _cost : Nat
  _control_label : Option String
  _control_text : Option String
  _response_json : Option String
  _results : Option String
  app_root : Option String
  logger : List (List (String × JsonVal))
  deriving Repr

namespace BaseProcessor

/-- BaseProcessor.__init__: stores the constructor arguments and zeroes the
internal counters; _status starts as prev_status, the scratch fields start
as None. -/
def init (index : Nat) (log_path : String) (request : String)
    (round_step : Nat) (global_step : Nat) (prev_status : String)
    (logger : List (List (String × JsonVal))) : ProcessorState :=
  { log_path := log_path
    request := request
    global_step := global_step
    round_step := round_step
    prev_status := prev_status
    index := index
    _step := 0
    _status := prev_status
    _prompt_message := none
    _response := none
    _cost := 0
    _control_label := none
    _control_text := none
    _response_json := none
    _results := none
    app_root := none
    logger := logger }

/-- BaseProcessor.is_error: the status equals the string ERROR. -/
def is_error (s : ProcessorState) : Bool :=
  s._status == "ERROR"

/-- BaseProcessor.should_create_appagent: the base implementation returns
False. -/
def should_create_appagent (_ : ProcessorState) : Bool :=
  false

/-- The abstract stage methods of BaseProcessor, overridden by concrete
subclasses (which are outside the given sources): each is an arbitrary
transformer of the processor state. should_create_appagent and
create_app_agent have base-class defaults (False and pass) but may be
overridden, so they are fields too. -/
structure Impl where
  print_step_info : ProcessorState → ProcessorState
  capture_screenshot : ProcessorState → ProcessorState
  get_control_info : ProcessorState → ProcessorState
  get_prompt_message : ProcessorState → ProcessorState
  get_response : ProcessorState → ProcessorState
  parse_response : ProcessorState → ProcessorState
  execute_action : ProcessorState → ProcessorState
  update_memory : ProcessorState → ProcessorState
  update_status : ProcessorState → ProcessorState
  should_create_appagent : ProcessorState → Bool
  create_app_agent : ProcessorState → ProcessorState

/-- The pipeline stages, as trace tokens: one per method invocation plus
the two is_error checks of BaseProcessor.process. -/
inductive Stage
  | print_step_info
  | capture_screenshot
  | get_control_info
  | get_prompt_message
  | get_response
  | error_check_A
  | parse_response
  | error_check_B
  | execute_action
  | update_memory
  | conditional_creation
  | create_app_agent
  | update_step_and_status
  deriving DecidableEq, Repr

/-- Stages 1 to 5 of BaseProcessor.process, which always run, in source
order: print_step_info, capture_screenshot, get_control_info,
get_prompt_message, get_response. -/
def preStages (impl : Impl) (s : ProcessorState) : ProcessorState :=
  impl.get_response (impl.get_prompt_message (impl.get_control_info
    (impl.capture_screenshot (impl.print_step_info s))))

/-- The trace of a run of BaseProcessor.process that returns at the first
is_error check. -/
def preTrace : List Stage :=
  [ Stage.print_step_info, Stage.capture_screenshot, Stage.get_control_info,
    Stage.get_prompt_message, Stage.get_response, Stage.error_check_A ]

/-- BaseProcessor.update_step_and_status: increments _step, then invokes
update_status. -/
def update_step_and_status (impl : Impl) (s : ProcessorState) :
    ProcessorState :=
  impl.update_status { s with _step := s._step + 1 }

/-- BaseProcessor.process: runs stages 1 to 5, returns if is_error, runs
parse_response, returns if is_error, then runs execute_action,
update_memory, the conditional create_app_agent guarded by
should_create_appagent, and update_step_and_status. Returns the final
state and the trace of invoked stages. -/
def process (impl : Impl) (s0 : ProcessorState) :
    ProcessorState × List Stage :=
  let s5 := preStages impl s0
  if is_error s5 then (s5, preTrace)
  else
    let s6 := impl.parse_response s5
    if is_error s6 then
      (s6, preTrace ++ [Stage.parse_response, Stage.error_check_B])
    else
      let s7 := impl.execute_action s6
      let s8 := impl.update_memory s7
      let created := impl.should_create_appagent s8
      let s9 := if created then impl.create_app_agent s8 else s8
      let s10 := update_step_and_status impl s9
      (s10,
        preTrace ++
          [ Stage.parse_response, Stage.error_check_B, Stage.execute_action,
            Stage.update_memory, Stage.conditional_creation ] ++
          (if created then [Stage.create_app_agent] else []) ++
          [Stage.update_step_and_status])

/-- BaseProcessor.error_log: json.dumps a dict with keys step, status,
response, error (status hard-coded to ERROR, step the current internal
counter) and writes the one resulting record to the logger. -/
def error_log (s : ProcessorState) (response_str : String) (error : String) :
    ProcessorState :=
  let log : List (String × JsonVal) :=
    [ ("step", JsonVal.num s._step), ("status", JsonVal.str "ERROR"),
      ("response", JsonVal.str response_str), ("error", JsonVal.str error) ]
  { s with logger := s.logger ++ [log] }

/-- State after parse_response in a run that passed the first check. -/
def afterParse (impl : Impl) (s0 : ProcessorState) : ProcessorState :=
  impl.parse_response (preStages impl s0)

/-- State after update_memory in a happy-path run. -/
def afterMemory (impl : Impl) (s0 : ProcessorState) : ProcessorState :=
  impl.update_memory (impl.execute_action (afterParse impl s0))

/-- State after the conditional create_app_agent in a happy-path run. -/
def afterCreate (impl : Impl) (s0 : ProcessorState) : ProcessorState :=
  if impl.should_create_appagent (afterMemory impl s0) then
    impl.create_app_agent (afterMemory impl s0)
  else afterMemory impl s0

end BaseProcessor

/-- A concrete app agent used in closed counterexample statements. -/
def agent0 : AppAgent :=
  { id := 1, status := "CONTINUE", host := { id := 0 } }

/-! ## Claims about the app-agent state machine -/

/-- C2: next_state of SWITCH is always the Host Continue state; next_state
of FINISH, ERROR and FAIL is always the Host Finish state; each transition
is the same for every agent, regardless of the status of the agent. -/
theorem c2_fixed_cross_role_transitions (agent : AppAgent) :
    AppAgentState.next_state .SwitchAppAgentState agent =
      NextState.hostState .ContinueHostAgentState ∧
    AppAgentState.next_state .FinishAppAgentState agent =
      NextState.hostState .FinishHostAgentState ∧
    AppAgentState.next_state .ErrorAppAgentState agent =
      NextState.hostState .FinishHostAgentState ∧
    AppAgentState.next_state .FailAppAgentState agent =
      NextState.hostState .FinishHostAgentState :=
  ⟨rfl, rfl, rfl, rfl⟩

/-- C3: next_agent of the FINISH, ERROR, FAIL, NONE and SWITCH states
returns the paired host agent (agent.host), never the app agent itself;
for Continue, Screenshot, Pending and Confirm the default next_agent
returns the same app agent. -/
theorem c3_next_agent_hand_off (agent : AppAgent) :
    AppAgentState.next_agent .FinishAppAgentState agent =
      BasicAgent.host agent.host ∧
    AppAgentState.next_agent .ErrorAppAgentState agent =
      BasicAgent.host agent.host ∧
    AppAgentState.next_agent .FailAppAgentState agent =
      BasicAgent.host agent.host ∧
    AppAgentState.next_agent .NoneAppAgentState agent =
      BasicAgent.host agent.host ∧
    AppAgentState.next_agent .SwitchAppAgentState agent =
      BasicAgent.host agent.host ∧
    AppAgentState.next_agent .FinishAppAgentState agent ≠
      BasicAgent.app agent ∧
    AppAgentState.next_agent .ErrorAppAgentState agent ≠
      BasicAgent.app agent ∧
    AppAgentState.next_agent .FailAppAgentState agent ≠
      BasicAgent.app agent ∧
    AppAgentState.next_agent .NoneAppAgentState agent ≠
      BasicAgent.app agent ∧
    AppAgentState.next_agent .SwitchAppAgentState agent ≠
      BasicAgent.app agent ∧
    AppAgentState.next_agent .ContinueAppAgentState agent =
      BasicAgent.app agent ∧
    AppAgentState.next_agent .ScreenshotAppAgentState agent =
      BasicAgent.app agent ∧
    AppAgentState.next_agent .PendingAppAgentState agent =
      BasicAgent.app agent ∧
    AppAgentState.next_agent .ConfirmAppAgentState agent =
      BasicAgent.app agent := by
  refine ⟨rfl, rfl, rfl, rfl, rfl, ?_, ?_, ?_, ?_, ?_, rfl, rfl, rfl, rfl⟩
    <;> simp [AppAgentState.next_agent]

/-- C4: among all nine App states, is_round_end is true exactly for the
ERROR state and the None state. -/
theorem c4_round_end_exactly_error_and_none (k : AppAgentStateKind) :
    AppAgentState.is_round_end k = true ↔
      (k = AppAgentStateKind.ErrorAppAgentState ∨
       k = AppAgentStateKind.NoneAppAgentState) := by
  cases k <;> simp [AppAgentState.is_round_end]

/-- C6 counterexample: at the concrete agent agent0, it fails that
next_state of the None state is Host Finish and next_state of the ERROR
state is Host None: in the code the None state goes to Host None and the
ERROR state goes to Host Finish. -/
theorem c6_counterexample :
    ¬ (AppAgentState.next_state .NoneAppAgentState agent0 =
        NextState.hostState .FinishHostAgentState ∧
       AppAgentState.next_state .ErrorAppAgentState agent0 =
        NextState.hostState .NoneHostAgentState) := by
  decide

/-- C6 amended: next_state of the None App state returns the Host None
state and next_state of the ERROR App state returns the Host Finish
state. -/
theorem c6_amended_none_and_error_targets (agent : AppAgent) :
    AppAgentState.next_state .NoneAppAgentState agent =
      NextState.hostState .NoneHostAgentState ∧
    AppAgentState.next_state .ErrorAppAgentState agent =
      NextState.hostState .FinishHostAgentState :=
  ⟨rfl, rfl⟩

/-- C7: the SCREENSHOT state agrees with the CONTINUE state on every
observable method except name: handle invokes agent.process exactly once,
next_agent returns the same app agent, next_state is derived from the
current status of the agent via the state manager, is_round_end is false,
and name returns SCREENSHOT instead of CONTINUE. -/
theorem c7_screenshot_equals_continue (agent : AppAgent) (uc : Bool) :
    AppAgentState.handle .ScreenshotAppAgentState uc =
      AppAgentState.handle .ContinueAppAgentState uc ∧
    AppAgentState.handle .ScreenshotAppAgentState uc =
      [AgentCall.process] ∧
    AppAgentState.next_agent .ScreenshotAppAgentState agent =
      AppAgentState.next_agent .ContinueAppAgentState agent ∧
    AppAgentState.next_agent .ScreenshotAppAgentState agent =
      BasicAgent.app agent ∧
    AppAgentState.next_state .ScreenshotAppAgentState agent =
      AppAgentState.next_state .ContinueAppAgentState agent ∧
    AppAgentState.next_state .ScreenshotAppAgentState agent =
      NextState.appState (AppAgentStateManager.get_state agent.status) ∧
    AppAgentState.is_round_end .ScreenshotAppAgentState =
      AppAgentState.is_round_end .ContinueAppAgentState ∧
    AppAgentState.is_round_end .ScreenshotAppAgentState = false ∧
    AppAgentStateKind.name .ScreenshotAppAgentState = "SCREENSHOT" ∧
    AppAgentStateKind.name .ContinueAppAgentState = "CONTINUE" :=
  ⟨rfl, rfl, rfl, rfl, rfl, rfl, rfl, rfl, rfl, rfl⟩

/-- C8: in the CONFIRM state, handle with a declining confirmation leaves
the agent unchanged (hence its status and state are unchanged) and never
calls process_resume; handle with an accepting confirmation calls
process_resume exactly once. -/
theorem c8_confirm_handle (self : ConfirmAppAgentStateData)
    (agent : AppAgent) :
    (ConfirmAppAgentState.handle self agent false).2.1 = agent ∧
    (ConfirmAppAgentState.handle self agent false).2.2 = [] ∧
    AgentCall.process_resume ∉
      (ConfirmAppAgentState.handle self agent false).2.2 ∧
    (ConfirmAppAgentState.handle self agent true).2.2 =
      [AgentCall.process_resume] ∧
    ((ConfirmAppAgentState.handle self agent true).2.2.count
      AgentCall.process_resume) = 1 := by
  refine ⟨rfl, rfl, ?_, rfl, rfl⟩
  simp [ConfirmAppAgentState.handle]

/-! ## Claims about the step-processing pipeline -/

open BaseProcessor

/-- Stage functions used by witness instantiations: an implementation whose
model invocation (get_response) ends with status ERROR. -/
def implErrA : Impl :=
  { print_step_info := id
    capture_screenshot := id
    get_control_info := id
    get_prompt_message := id
    get_response := fun s => { s with _status := "ERROR" }
    parse_response := id
    execute_action := id
    update_memory := id
    update_status := id
    should_create_appagent := BaseProcessor.should_create_appagent
    create_app_agent := id }

/-- A happy-path implementation: the response parses and the status-update
rule yields FINISH. -/
def implOk : Impl :=
  { print_step_info := id
    capture_screenshot := id
    get_control_info := id
    get_prompt_message := id
    get_response := fun s => { s with _response := some "resp" }
    parse_response := fun s => { s with _response_json := some "json" }
    execute_action := id
    update_memory := id
    update_status := fun s => { s with _status := "FINISH" }
    should_create_appagent := BaseProcessor.should_create_appagent
    create_app_agent := id }

/-- An implementation whose stages all leave the state untouched. -/
def implId : Impl :=
  { print_step_info := id
    capture_screenshot := id
    get_control_info := id
    get_prompt_message := id
    get_response := id
    parse_response := id
    execute_action := id
    update_memory := id
    update_status := id
    should_create_appagent := BaseProcessor.should_create_appagent
    create_app_agent := id }

/-- A freshly constructed processor used by witness instantiations. -/
def s0Cont : ProcessorState :=
  BaseProcessor.init 0 "log" "req" 0 0 "CONTINUE" []

/-- The trace of a run stopped at the first check contains none of the
later stages. -/
theorem preTrace_excludes_late_stages :
    Stage.parse_response ∉ preTrace ∧
    Stage.execute_action ∉ preTrace ∧
    Stage.update_memory ∉ preTrace ∧
    Stage.create_app_agent ∉ preTrace ∧
    Stage.update_step_and_status ∉ preTrace := by
  decide

/-- The trace of a run stopped at the second check contains none of the
stages after parse_response. -/
theorem parseTrace_excludes_late_stages :
    Stage.execute_action ∉
      preTrace ++ [Stage.parse_response, Stage.error_check_B] ∧
    Stage.update_memory ∉
      preTrace ++ [Stage.parse_response, Stage.error_check_B] ∧
    Stage.create_app_agent ∉
      preTrace ++ [Stage.parse_response, Stage.error_check_B] ∧
    Stage.update_step_and_status ∉
      preTrace ++ [Stage.parse_response, Stage.error_check_B] := by
  decide

/-- C1: if the status is ERROR after get_response, process returns at the
first check: parse_response, execute_action, update_memory,
create_app_agent and update_step_and_status are never invoked, and (as
stages 1 to 5 leave the internal counter alone) the step counter is
unchanged; likewise, if the status is ERROR after parse_response, process
returns at the second check and execute_action and all later stages are
never invoked. -/
theorem c1_error_short_circuit (impl : Impl) (s0 : ProcessorState) :
    (is_error (preStages impl s0) = true →
      process impl s0 = (preStages impl s0, preTrace) ∧
      Stage.parse_response ∉ (process impl s0).2 ∧
      Stage.execute_action ∉ (process impl s0).2 ∧
      Stage.update_memory ∉ (process impl s0).2 ∧
      Stage.create_app_agent ∉ (process impl s0).2 ∧
      Stage.update_step_and_status ∉ (process impl s0).2 ∧
      ((preStages impl s0)._step = s0._step →
        (process impl s0).1._step = s0._step)) ∧
    (is_error (preStages impl s0) = false →
      is_error (afterParse impl s0) = true →
      process impl s0 =
        (afterParse impl s0,
          preTrace ++ [Stage.parse_response, Stage.error_check_B]) ∧
      Stage.execute_action ∉ (process impl s0).2 ∧
      Stage.update_memory ∉ (process impl s0).2 ∧
      Stage.create_app_agent ∉ (process impl s0).2 ∧
      Stage.update_step_and_status ∉ (process impl s0).2) := by
  constructor
  · intro hA
    have hp : process impl s0 = (preStages impl s0, preTrace) := by
      simp [process, hA]
    rw [hp]
    exact ⟨rfl, preTrace_excludes_late_stages.1,
      preTrace_excludes_late_stages.2.1,
      preTrace_excludes_late_stages.2.2.1,
      preTrace_excludes_late_stages.2.2.2.1,
      preTrace_excludes_late_stages.2.2.2.2, fun hs => hs⟩
  · intro hA hB
    have hB' : is_error (impl.parse_response (preStages impl s0)) = true := hB
    have hp : process impl s0 =
        (afterParse impl s0,
          preTrace ++ [Stage.parse_response, Stage.error_check_B]) := by
      simp [process, hA, hB', afterParse]
    rw [hp]
    exact ⟨rfl, parseTrace_excludes_late_stages.1,
      parseTrace_excludes_late_stages.2.1,
      parseTrace_excludes_late_stages.2.2.1,
      parseTrace_excludes_late_stages.2.2.2⟩

/-- C1 witness: at implErrA and a fresh processor, the hypotheses of the
first branch hold and the short-circuit conclusions follow. -/
theorem c1_error_short_circuit_witness :
    is_error (preStages implErrA s0Cont) = true ∧
    (preStages implErrA s0Cont)._step = s0Cont._step ∧
    Stage.parse_response ∉ (process implErrA s0Cont).2 ∧
    (process implErrA s0Cont).1._step = s0Cont._step := by
  have h := (c1_error_short_circuit implErrA s0Cont).1 (by decide)
  exact ⟨by decide, by decide, h.2.1, h.2.2.2.2.2.2 (by decide)⟩

/-- C5: if the status is ERROR neither after get_response nor after
parse_response, process runs every stage in source order exactly once
(create_app_agent exactly when should_create_appagent says so), the final
state is update_status applied to the state after the conditional creation
with the step counter incremented, and (as the stage implementations leave
the step counter alone) the internal step counter increments by exactly
one. -/
theorem c5_happy_path (impl : Impl) (s0 : ProcessorState)
    (hA : is_error (preStages impl s0) = false)
    (hB : is_error (afterParse impl s0) = false)
    (hstep : (afterCreate impl s0)._step = s0._step)
    (hus : (impl.update_status
        { afterCreate impl s0 with
            _step := (afterCreate impl s0)._step + 1 })._step =
      (afterCreate impl s0)._step + 1) :
    (process impl s0).2 =
      preTrace ++
        [ Stage.parse_response, Stage.error_check_B, Stage.execute_action,
          Stage.update_memory, Stage.conditional_creation ] ++
        (if impl.should_create_appagent (afterMemory impl s0) then
          [Stage.create_app_agent] else []) ++
        [Stage.update_step_and_status] ∧
    (process impl s0).1 =
      impl.update_status
        { afterCreate impl s0 with
            _step := (afterCreate impl s0)._step + 1 } ∧
    (process impl s0).1._step = s0._step + 1 := by
  have hB' : is_error (impl.parse_response (preStages impl s0)) = false := hB
  have hp : process impl s0 =
      (impl.update_status
        { afterCreate impl s0 with
            _step := (afterCreate impl s0)._step + 1 },
        preTrace ++
          [ Stage.parse_response, Stage.error_check_B, Stage.execute_action,
            Stage.update_memory, Stage.conditional_creation ] ++
          (if impl.should_create_appagent (afterMemory impl s0) then
            [Stage.create_app_agent] else []) ++
          [Stage.update_step_and_status]) := by
    simp only [process, hA, hB', Bool.false_eq_true, if_false,
      update_step_and_status, afterCreate, afterMemory, afterParse]
  refine ⟨by rw [hp], by rw [hp], ?_⟩
  rw [hp]
  calc (impl.update_status
        { afterCreate impl s0 with
            _step := (afterCreate impl s0)._step + 1 })._step
      = (afterCreate impl s0)._step + 1 := hus
    _ = s0._step + 1 := by rw [hstep]

/-- C5 witness: at implOk and a fresh processor, the hypotheses hold, the
trace is the full pipeline, and the step counter goes from 0 to 1. -/
theorem c5_happy_path_witness :
    is_error (preStages implOk s0Cont) = false ∧
    is_error (afterParse implOk s0Cont) = false ∧
    (afterCreate implOk s0Cont)._step = s0Cont._step ∧
    (process implOk s0Cont).1._step = s0Cont._step + 1 := by
  have h := c5_happy_path implOk s0Cont (by decide) (by decide)
    (by decide) (by decide)
  exact ⟨by decide, by decide, by decide, h.2.2⟩

/-- C9: error_log writes exactly one record to the logger, the earlier
records are untouched, and the new record has exactly the keys step,
status, response and error, with status the string ERROR and step the
current internal step counter. -/
theorem c9_error_log_shape (s : ProcessorState)
    (response_str : String) (error : String) :
    (error_log s response_str error).logger.length = s.logger.length + 1 ∧
    (error_log s response_str error).logger.take s.logger.length =
      s.logger ∧
    (error_log s response_str error).logger.getLast? =
      some [ ("step", JsonVal.num s._step),
             ("status", JsonVal.str "ERROR"),
             ("response", JsonVal.str response_str),
             ("error", JsonVal.str error) ] ∧
    ((error_log s response_str error).logger.getLast?).map
        (fun record => record.map Prod.fst) =
      some ["step", "status", "response", "error"] := by
  refine ⟨?_, ?_, ?_, ?_⟩ <;>
    simp [error_log, List.getLast?_concat, List.take_left]

/-- C10: a freshly constructed BaseProcessor has step counter 0, cost 0 and
status equal to the prev_status argument; consequently, when constructed
with prev_status ERROR, if stages 1 to 5 do not overwrite the status then
process short-circuits after get_response and parse_response and
execute_action are never invoked. -/
theorem c10_fresh_processor_prev_error (index : Nat)
    (log_path : String) (request : String) (round_step : Nat)
    (global_step : Nat) (prev_status : String)
    (logger : List (List (String × JsonVal))) (impl : Impl)
    (hkeep : (preStages impl (BaseProcessor.init index log_path request
        round_step global_step "ERROR" logger))._status = "ERROR") :
    (BaseProcessor.init index log_path request round_step global_step
      prev_status logger)._step = 0 ∧
    (BaseProcessor.init index log_path request round_step global_step
      prev_status logger)._cost = 0 ∧
    (BaseProcessor.init index log_path request round_step global_step
      prev_status logger)._status = prev_status ∧
    process impl (BaseProcessor.init index log_path request round_step
        global_step "ERROR" logger) =
      (preStages impl (BaseProcessor.init index log_path request round_step
        global_step "ERROR" logger), preTrace) ∧
    Stage.parse_response ∉ (process impl (BaseProcessor.init index log_path
      request round_step global_step "ERROR" logger)).2 ∧
    Stage.execute_action ∉ (process impl (BaseProcessor.init index log_path
      request round_step global_step "ERROR" logger)).2 := by
  have hA : is_error (preStages impl (BaseProcessor.init index log_path
      request round_step global_step "ERROR" logger)) = true := by
    simp [is_error, hkeep]
  have hp : process impl (BaseProcessor.init index log_path request
        round_step global_step "ERROR" logger) =
      (preStages impl (BaseProcessor.init index log_path request round_step
        global_step "ERROR" logger), preTrace) := by
    simp [process, hA]
  refine ⟨rfl, rfl, rfl, hp, ?_, ?_⟩
  · rw [hp]; exact preTrace_excludes_late_stages.1
  · rw [hp]; exact preTrace_excludes_late_stages.2.1

/-- C10 witness: with identity stages and prev_status ERROR, the hypothesis
holds and process short-circuits on a fresh processor. -/
theorem c10_fresh_processor_prev_error_witness :
    (preStages implId (BaseProcessor.init 0 "log" "req" 0 0 "ERROR"
      []))._status = "ERROR" ∧
    (BaseProcessor.init 0 "log" "req" 0 0 "ERROR" [])._step = 0 ∧
    Stage.parse_response ∉
      (process implId (BaseProcessor.init 0 "log" "req" 0 0 "ERROR" [])).2 := by
  have h := c10_fresh_processor_prev_error 0 "log" "req" 0 0 "ERROR" []
    implId (by decide)
  exact ⟨by decide, h.1, h.2.2.2.2.1⟩

end UFO
